import Mathlib

/-!
Verification of the runtimebase repository (Go): a shallow embedding of
`pkg/baseline/baseline.go` and the `detect` package, with theorems about
the behavioral-baseline learning and anomaly-detection routines.

Go `float64` values are modelled exactly: finite values as rationals, and
the IEEE special values (+Inf, -Inf, NaN) as extra constructors, because
`DetectAnomaly` divides by a standard deviation that can be zero and the
resulting infinities drive its control flow.  Rounding is abstracted away
(all arithmetic in the modelled code is exact on the inputs considered).
Go maps are modelled as `String → Option _` functions where the code only
reads and writes single keys, and as association lists where the code
iterates over the entries.  `time.Time` fields and regular-expression
fields are omitted: no modelled function reads them.
-/

namespace Runtimebase

/-- IEEE-style extended value modelling Go `float64`: a finite rational,
positive infinity, negative infinity, or NaN.  `-0.0` is identified with
`0`; the modelled code never distinguishes them. -/
inductive F where
  | fin (q : ℚ)
  | inf
  | ninf
  | nan
deriving DecidableEq

/-- IEEE negation. -/
def F.neg : F → F
  | .fin q => .fin (-q)
  | .inf => .ninf
  | .ninf => .inf
  | .nan => .nan

/-- IEEE addition (Inf + -Inf = NaN; NaN propagates). -/
def F.add : F → F → F
  | .nan, _ => .nan
  | _, .nan => .nan
  | .fin a, .fin b => .fin (a + b)
  | .fin _, .inf => .inf
  | .fin _, .ninf => .ninf
  | .inf, .fin _ => .inf
  | .ninf, .fin _ => .ninf
  | .inf, .inf => .inf
  | .ninf, .ninf => .ninf
  | .inf, .ninf => .nan
  | .ninf, .inf => .nan

/-- IEEE subtraction, as addition of the negation. -/
def F.sub (a b : F) : F := F.add a (F.neg b)

/-- IEEE multiplication (0 * Inf = NaN; NaN propagates). -/
def F.mul : F → F → F
  | .nan, _ => .nan
  | _, .nan => .nan
  | .fin a, .fin b => .fin (a * b)
  | .fin a, .inf => if 0 < a then .inf else if a < 0 then .ninf else .nan
  | .fin a, .ninf => if 0 < a then .ninf else if a < 0 then .inf else .nan
  | .inf, .fin b => if 0 < b then .inf else if b < 0 then .ninf else .nan
  | .ninf, .fin b => if 0 < b then .ninf else if b < 0 then .inf else .nan
  | .inf, .inf => .inf
  | .inf, .ninf => .ninf
  | .ninf, .inf => .ninf
  | .ninf, .ninf => .inf

/-- IEEE division: a nonzero finite value divided by zero is a signed
infinity, 0/0 is NaN, finite/infinite is 0 (signed zero identified with 0),
infinite/infinite is NaN. -/
def F.div : F → F → F
  | .nan, _ => .nan
  | _, .nan => .nan
  | .fin a, .fin b =>
      if b = 0 then (if a = 0 then .nan else if 0 < a then .inf else .ninf)
      else .fin (a / b)
  | .fin _, .inf => .fin 0
  | .fin _, .ninf => .fin 0
  | .inf, .fin b => if b < 0 then .ninf else .inf
  | .ninf, .fin b => if b < 0 then .inf else .ninf
  | .inf, .inf => .nan
  | .inf, .ninf => .nan
  | .ninf, .inf => .nan
  | .ninf, .ninf => .nan

/-- IEEE strict comparison `a < b`: every comparison with NaN is false. -/
def F.lt : F → F → Bool
  | .nan, _ => false
  | _, .nan => false
  | .fin a, .fin b => decide (a < b)
  | .fin _, .inf => true
  | .fin _, .ninf => false
  | .inf, _ => false
  | .ninf, .ninf => false
  | .ninf, _ => true

/-- IEEE non-strict comparison `a ≤ b`: every comparison with NaN is false. -/
def F.le : F → F → Bool
  | .nan, _ => false
  | _, .nan => false
  | .fin a, .fin b => decide (a ≤ b)
  | .fin _, .inf => true
  | .fin _, .ninf => false
  | .inf, .inf => true
  | .inf, _ => false
  | .ninf, _ => true

/-- `Stat` from baseline.go: statistical data for a pattern.  All float64
fields are finite throughout the modelled code, so they are rationals. -/
structure Stat where
  mean : ℚ
  stdDev : ℚ
  min : ℚ
  max : ℚ
  sampleCount : Nat
deriving DecidableEq

/-- The Go zero value `Stat{}`. -/
def Stat.zero : Stat := { mean := 0, stdDev := 0, min := 0, max := 0, sampleCount := 0 }

/-- `Anomaly` from baseline.go (the `Timestamp` field is omitted). -/
structure Anomaly where
  type : String
  description : String
  severity : String
  evidence : String
  confidence : F
  riskLevel : String
deriving DecidableEq

/-- `Baseline` from baseline.go.  `CreatedAt`/`UpdatedAt`/`Patterns` are
omitted (no modelled function reads them); the `Stats` Go map is a
function from keys to optional entries. -/
structure Baseline where
  name : String
  stats : String → Option Stat
  anomalyThreshold : ℚ

/-- `Learner` from baseline.go: the `baselines` Go map. -/
structure Learner where
  baselines : String → Option Baseline

/-- `NewLearner`: empty baselines map. -/
def newLearner : Learner := { baselines := fun _ => none }

/-- `Learner.CreateBaseline`: unconditionally stores a fresh baseline under
`name` (overwriting any entry already there) and returns it.  Threshold is
3.0 standard deviations. -/
def Learner.createBaseline (l : Learner) (name : String) : Learner × Baseline :=
  let baseline : Baseline :=
    { name := name, stats := fun _ => none, anomalyThreshold := 3 }
  ({ baselines := fun n => if n = name then some baseline else l.baselines n }, baseline)

/-- `Learner.GetBaseline`: plain map lookup, `nil` (`none`) when absent. -/
def Learner.getBaseline (l : Learner) (name : String) : Option Baseline :=
  l.baselines name

/-- `Baseline.RecordObservation`: ensures a zero `Stat` exists for the key
`category + ":" + pattern`, then increments its `SampleCount`.  The `count`
argument is ignored, exactly as in the Go source. -/
def Baseline.recordObservation (b : Baseline) (category pat : String) (count : Int) : Baseline :=
  let key := category ++ ":" ++ pat
  let stat := (b.stats key).getD Stat.zero
  let _ := count
  { b with stats := fun k =>
      if k = key then some { stat with sampleCount := stat.sampleCount + 1 } else b.stats k }

/-- `getSeverity` from baseline.go: bands on the raw (signed) z-score. -/
def getSeverity (zScore : F) : String :=
  if F.lt (F.fin 5) zScore then "CRITICAL"
  else if F.lt (F.fin 3) zScore then "HIGH"
  else if F.lt (F.fin 2) zScore then "MEDIUM"
  else "LOW"

/-- `getRiskLevel` from baseline.go: same bands as `getSeverity`. -/
def getRiskLevel (zScore : F) : String :=
  if F.lt (F.fin 5) zScore then "CRITICAL"
  else if F.lt (F.fin 3) zScore then "HIGH"
  else if F.lt (F.fin 2) zScore then "MEDIUM"
  else "LOW"

/-- `calculateConfidence` from baseline.go:
`1 - 1/(1 + z*z/2)`, clamped from above at 1. -/
def calculateConfidence (zScore : F) : F :=
  let confidence :=
    F.sub (F.fin 1) (F.div (F.fin 1) (F.add (F.fin 1) (F.div (F.mul zScore zScore) (F.fin 2))))
  if F.lt (F.fin 1) confidence then F.fin 1 else confidence

/-- `Learner.DetectAnomaly` from baseline.go: looks up the baseline and the
signature's `Stat`; when present, computes the z-score (dividing by the
stored standard deviation, with IEEE semantics when it is zero) and flags
one anomaly when the z-score exceeds the threshold in absolute position. -/
def Learner.detectAnomaly (l : Learner) (name category pat : String) (count : Int) :
    List Anomaly :=
  match l.baselines name with
  | none => []
  | some baseline =>
    let key := category ++ ":" ++ pat
    match baseline.stats key with
    | none => []
    | some stat =>
      let zScore := F.div (F.fin ((count : ℚ) - stat.mean)) (F.fin stat.stdDev)
      if F.lt (F.fin baseline.anomalyThreshold) zScore ||
         F.lt zScore (F.fin (-baseline.anomalyThreshold)) then
        [{ type := "Behavioral Anomaly",
           description := "Observed behavior deviates from baseline",
           severity := getSeverity zScore,
           evidence := pat,
           confidence := calculateConfidence zScore,
           riskLevel := getRiskLevel zScore }]
      else []

/-- `Baseline.UpdateBaseline` from baseline.go: creates the entry with
`Mean = Min = Max = count` (and Go zero `SampleCount = 0`) when absent;
otherwise folds `count` into the mean using the *unchanged* `SampleCount`,
and updates `Min`/`Max`.  `SampleCount` is never incremented here. -/
def Baseline.updateBaseline (b : Baseline) (category pat : String) (count : ℚ) : Baseline :=
  let key := category ++ ":" ++ pat
  match b.stats key with
  | none =>
    { b with stats := fun k =>
        if k = key then
          some { mean := count, stdDev := 0, min := count, max := count, sampleCount := 0 }
        else b.stats k }
  | some stat =>
    let stat' :=
      { stat with
        mean := (stat.mean * (stat.sampleCount : ℚ) + count) / ((stat.sampleCount : ℚ) + 1),
        max := max stat.max count,
        min := min stat.min count }
    { b with stats := fun k => if k = key then some stat' else b.stats k }

/-- `IsNormal` from baseline.go: explicit zero-stddev branch comparing the
count to the mean; otherwise a two-sided z-score threshold test.  All
callers pass finite values, so it is modelled on rationals. -/
def isNormal (count mean stddev threshold : ℚ) : Bool :=
  if stddev = 0 then decide (count = mean)
  else
    let zScore := (count - mean) / stddev
    decide (zScore ≤ threshold) && decide (-threshold ≤ zScore)

/-- `CalculateZScore` from baseline.go: returns 0 when the standard
deviation is zero. -/
def calculateZScore (value mean stddev : ℚ) : ℚ :=
  if stddev = 0 then 0 else (value - mean) / stddev

/-! The `detect` package. -/

/-- `SystemEvent` from the detect package; only the `Type` field is read by
the modelled functions (`Timestamp`, `Data`, `ProcessName`, `PID` omitted). -/
structure SystemEvent where
  type : String
deriving DecidableEq

/-- `Pattern` from the detect package (the `Regex` field is omitted: `Detect`
never reads it). -/
structure Pattern where
  name : String
  category : String
  severity : String
  description : String
deriving DecidableEq

/-- `AnomalyResult` from the detect package. -/
structure AnomalyResult where
  pattern : String
  severity : String
  confidence : ℚ
  description : String
  recommendation : String
deriving DecidableEq

/-- `Detector` from the detect package. -/
structure Detector where
  patterns : List Pattern

/-- `NewDetector`: the four built-in detection patterns. -/
def newDetector : Detector :=
  { patterns :=
      [ { name := "Excessive File Access", category := "file", severity := "MEDIUM",
          description := "High frequency file access detected" },
        { name := "Network Connection Spike", category := "network", severity := "HIGH",
          description := "Abnormal network connection activity" },
        { name := "Process Fork Bomb", category := "process", severity := "CRITICAL",
          description := "Excessive process creation detected" },
        { name := "System Call Spike", category := "syscall", severity := "MEDIUM",
          description := "High system call frequency" } ] }

/-- The `categoryCounts` map built by `Detect`: fold over the events,
incrementing the entry at `event.Type` (missing entries read as 0). -/
def countCategories (events : List SystemEvent) : String → Nat :=
  events.foldl (fun counts event => fun c => if c = event.type then counts c + 1 else counts c)
    (fun _ => 0)

/-- The `AnomalyResult` that `Detect` emits for a pattern whose category
count passed the threshold: confidence is `count / 200` (unclamped). -/
def resultOf (p : Pattern) (count : Nat) : AnomalyResult :=
  { pattern := p.name, severity := p.severity, confidence := (count : ℚ) / 200,
    description := p.description, recommendation := "Review and investigate this activity" }

/-- `Detector.Detect` from the detect package: counts events by `Type`,
then emits a result for every pattern whose category count exceeds 100. -/
def Detector.detect (d : Detector) (events : List SystemEvent) : List AnomalyResult :=
  let categoryCounts := countCategories events
  d.patterns.filterMap (fun p =>
    let count := categoryCounts p.category
    if 100 < count then some (resultOf p count) else none)

/-- Sum of the values of the baseline count map, as computed by
`CalculateBehaviorScore`'s range loop. -/
def baselineTotal (baseline : List (String × Int)) : ℚ :=
  baseline.foldl (fun acc p => acc + (p.2 : ℚ)) 0

/-- `CalculateBehaviorScore` from the detect package: 100 when the baseline
map is empty or its total is 0; otherwise `100 - (ratio - 1) * 50` with
`ratio = len(events) / total`, clamped below at 0 then above at 100. -/
def calculateBehaviorScore (events : List SystemEvent) (baseline : List (String × Int)) : ℚ :=
  if baseline.length = 0 then 100
  else
    let totalEvents : ℚ := (events.length : ℚ)
    let totalBaseline : ℚ := baselineTotal baseline
    if totalBaseline = 0 then 100
    else
      let rq := totalEvents / totalBaseline
      let score := 100 - (rq - 1) * 50
      let score1 := if score < 0 then (0 : ℚ) else score
      let score2 := if 100 < score1 then (100 : ℚ) else score1
      score2

/-- Go map lookup on an association list (Go maps have unique keys; the
first matching entry is the entry). -/
def lookupMap (m : List (String × Int)) (k : String) : Option Int :=
  (m.find? (fun p => p.1 == k)).map (fun p => p.2)

/-- Occurrence count of `x` in `l` (the inner counting loop shared by the
three per-dimension scans). -/
def countOcc (x : String) (l : List String) : Nat :=
  (l.filter (fun s => s == x)).length

/-- The flagging condition shared by the three per-dimension scans: the
item exists in the baseline map and its batch count exceeds the expected
count times `mult` (items absent from the baseline are never flagged). -/
def overCount (items : List String) (baseline : List (String × Int)) (mult : Int)
    (x : String) : Bool :=
  match lookupMap baseline x with
  | some expected => decide ((countOcc x items : Int) > expected * mult)
  | none => false

/-- `DetectSystemCallAnomaly` from the detect package: for each occurrence
of a syscall in the batch (no dedup), flag it when its batch count exceeds
its baseline expected count times 3; syscalls absent from the baseline are
skipped. -/
def detectSystemCallAnomaly (syscalls : List String) (baseline : List (String × Int)) :
    List String :=
  syscalls.filter (fun syscall => overCount syscalls baseline 3 syscall)

/-- Shared loop of `DetectFileAccessAnomaly` and `DetectNetworkAnomaly`
(identical in the Go source up to the multiplier): walk the batch keeping a
`seen` set, and flag each first occurrence whose batch count exceeds the
baseline expected count times `mult`. -/
def detectSeenAux (items : List String) (baseline : List (String × Int)) (mult : Int) :
    List String → List String → List String
  | [], _ => []
  | x :: rest, seen =>
    if x ∈ seen then detectSeenAux items baseline mult rest seen
    else
      if overCount items baseline mult x then x :: detectSeenAux items baseline mult rest (x :: seen)
      else detectSeenAux items baseline mult rest (x :: seen)

/-- `DetectFileAccessAnomaly` from the detect package: multiplier 5, with
dedup via the `seen` map. -/
def detectFileAccessAnomaly (files : List String) (baseline : List (String × Int)) :
    List String :=
  detectSeenAux files baseline 5 files []

/-- `DetectNetworkAnomaly` from the detect package: multiplier 3, with
dedup via the `seen` map. -/
def detectNetworkAnomaly (connections : List String) (baseline : List (String × Int)) :
    List String :=
  detectSeenAux connections baseline 3 connections []

/-! Helper lemmas about the extended-float model. -/

theorem F.div_fin_zero_pos {a : ℚ} (h : 0 < a) : F.div (F.fin a) (F.fin 0) = F.inf := by
  simp [F.div, h, ne_of_gt h]

theorem F.div_fin_zero_neg {a : ℚ} (h : a < 0) : F.div (F.fin a) (F.fin 0) = F.ninf := by
  simp [F.div, ne_of_lt h, not_lt_of_lt h]

theorem F.div_zero_zero : F.div (F.fin 0) (F.fin 0) = F.nan := by
  simp [F.div]

theorem F.div_fin {a b : ℚ} (h : b ≠ 0) : F.div (F.fin a) (F.fin b) = F.fin (a / b) := by
  simp [F.div, h]

theorem F.sub_fin (a b : ℚ) : F.sub (F.fin a) (F.fin b) = F.fin (a - b) := by
  simp [F.sub, F.neg, F.add, sub_eq_add_neg]

theorem F.lt_fin (a b : ℚ) : F.lt (F.fin a) (F.fin b) = decide (a < b) := rfl

/-- On finite inputs `calculateConfidence` computes exactly
`q^2 / (q^2 + 2)` (the clamp at 1 never fires). -/
theorem calcConf_fin (q : ℚ) :
    calculateConfidence (F.fin q) = F.fin (q ^ 2 / (q ^ 2 + 2)) := by
  have hq : (0 : ℚ) ≤ q * q := mul_self_nonneg q
  have hden : (1 + q * q / 2 : ℚ) ≠ 0 := by positivity
  have hr : (1 : ℚ) / (1 + q * q / 2) > 0 := by positivity
  have hle : ¬ ((1 : ℚ) < 1 - 1 / (1 + q * q / 2)) := by linarith
  have hval : (1 : ℚ) - 1 / (1 + q * q / 2) = q ^ 2 / (q ^ 2 + 2) := by
    field_simp
    ring
  simp only [calculateConfidence, F.mul, F.add, F.div_fin two_ne_zero, F.div_fin hden,
    F.sub_fin, F.lt_fin, hval]
  simp [hval ▸ hle]

/-! Concrete states used by counterexamples and witnesses. -/

/-- A stored `Stat` with zero standard deviation and mean 5. -/
def zeroVarStat : Stat := { mean := 5, stdDev := 0, min := 5, max := 5, sampleCount := 3 }

/-- A baseline holding `zeroVarStat` under the signature `syscall:open`. -/
def zeroVarBaseline : Baseline :=
  { name := "app",
    stats := fun k => if k = "syscall:open" then some zeroVarStat else none,
    anomalyThreshold := 3 }

/-- A learner holding `zeroVarBaseline` under the name `app`. -/
def zeroVarLearner : Learner :=
  { baselines := fun n => if n = "app" then some zeroVarBaseline else none }

/-! Claim theorems. -/

/-- Claim C1 (code evaluated at the failing input): after creating a
baseline and recording the observation value 100 twice, the stored `Stat`
is `Mean = 0, SampleCount = 2` — the observed values never reached the
mean.  And two `UpdateBaseline` calls with values 100 then 200 leave
`Mean = 200` (the last value, not the arithmetic mean 150) with
`SampleCount` still 0: no update path keeps count and mean in step. -/
theorem claim_C1_eval :
    ((((Learner.createBaseline newLearner "app").2.recordObservation "syscall" "open"
          100).recordObservation "syscall" "open" 100).stats "syscall:open" =
      some { mean := 0, stdDev := 0, min := 0, max := 0, sampleCount := 2 }) ∧
    ((((Learner.createBaseline newLearner "app").2.updateBaseline "syscall" "open"
          100).updateBaseline "syscall" "open" 200).stats "syscall:open" =
      some { mean := 200, stdDev := 0, min := 100, max := 200, sampleCount := 0 }) := by
  have hk : ("syscall" ++ ":" ++ "open" : String) = "syscall:open" := rfl
  constructor
  · rfl
  · simp only [Learner.createBaseline, Baseline.updateBaseline, hk]
    norm_num [Stat.mk.injEq]

/-- Claim C2 counterexample: with stored mean 5, stddev 0 and observation
10, `DetectAnomaly` flags one anomaly of severity CRITICAL — not the
MEDIUM the claim requires for the zero-variance branch. -/
theorem claim_C2_counterexample :
    (Learner.detectAnomaly zeroVarLearner "app" "syscall" "open" 10).map Anomaly.severity =
      ["CRITICAL"] := by
  have hb : zeroVarLearner.baselines "app" = some zeroVarBaseline := rfl
  have hs : zeroVarBaseline.stats ("syscall" ++ ":" ++ "open") = some zeroVarStat := rfl
  have hsd : zeroVarStat.stdDev = 0 := rfl
  have hm : ((10 : Int) : ℚ) - zeroVarStat.mean = 5 := by norm_num [zeroVarStat]
  simp only [Learner.detectAnomaly, hb, hs, hsd, hm]
  rw [F.div_fin_zero_pos (by norm_num)]
  simp [F.lt, getSeverity]

/-- Claim C2 (amended): with a zero standard deviation, `DetectAnomaly`
flags an anomaly iff the observed value differs from the stored mean, but
it does so through IEEE division by zero (z-score `±Inf`, or NaN on
equality), not a dedicated branch, and the flagged severity is CRITICAL
above the mean and LOW below it — never MEDIUM.  Only the helper
`IsNormal` has the explicit zero-stddev policy branch `count == mean`. -/
theorem claim_C2_amended :
    (∀ (l : Learner) (name category pat : String) (count : Int) (b : Baseline) (stat : Stat),
      l.baselines name = some b →
      b.stats (category ++ ":" ++ pat) = some stat →
      stat.stdDev = 0 →
      ((l.detectAnomaly name category pat count ≠ []) ↔ ((count : ℚ) ≠ stat.mean)) ∧
      (∀ a ∈ l.detectAnomaly name category pat count,
        a.severity = if stat.mean < (count : ℚ) then "CRITICAL" else "LOW")) ∧
    (∀ count mean threshold : ℚ, isNormal count mean 0 threshold = decide (count = mean)) := by
  constructor
  · intro l name category pat count b stat hb hs hsd
    simp only [Learner.detectAnomaly, hb, hs, hsd]
    rcases lt_trichotomy stat.mean ((count : ℚ)) with hlt | heq | hgt
    · rw [F.div_fin_zero_pos (by linarith)]
      have hcond : (F.lt (F.fin b.anomalyThreshold) F.inf ||
          F.lt F.inf (F.fin (-b.anomalyThreshold))) = true := by
        simp [F.lt]
      have hne : (count : ℚ) ≠ stat.mean := ne_of_gt hlt
      simp only [hcond, if_true]
      refine ⟨⟨fun _ => hne, fun _ => by simp⟩, ?_⟩
      intro a ha
      rw [List.mem_singleton] at ha
      subst ha
      show getSeverity F.inf = _
      rw [if_pos hlt]
      rfl
    · have h0 : (count : ℚ) - stat.mean = 0 := by rw [heq, sub_self]
      rw [h0, F.div_zero_zero]
      have hcond : (F.lt (F.fin b.anomalyThreshold) F.nan ||
          F.lt F.nan (F.fin (-b.anomalyThreshold))) = false := by
        simp [F.lt]
      simp only [hcond, Bool.false_eq_true, if_false]
      refine ⟨?_, by simp⟩
      simp [heq]
    · rw [F.div_fin_zero_neg (by linarith)]
      have hcond : (F.lt (F.fin b.anomalyThreshold) F.ninf ||
          F.lt F.ninf (F.fin (-b.anomalyThreshold))) = true := by
        simp [F.lt]
      have hne : (count : ℚ) ≠ stat.mean := ne_of_lt hgt
      simp only [hcond, if_true]
      refine ⟨⟨fun _ => hne, fun _ => by simp⟩, ?_⟩
      intro a ha
      rw [List.mem_singleton] at ha
      subst ha
      show getSeverity F.ninf = _
      rw [if_neg (not_lt_of_lt hgt)]
      rfl
  · intro count mean threshold
    simp [isNormal]

/-- Claim C2 witness: the amended theorem applied at the concrete
zero-variance learner with observation 10 against mean 5. -/
theorem claim_C2_witness :
    Learner.detectAnomaly zeroVarLearner "app" "syscall" "open" 10 ≠ [] :=
  (claim_C2_amended.1 zeroVarLearner "app" "syscall" "open" 10 zeroVarBaseline zeroVarStat
    rfl rfl rfl).1.mpr (by norm_num [zeroVarStat])

/-- Claim C3 counterexample: z-scores -6 and 6 have the same absolute
value 6 > 5, yet `getSeverity` returns LOW for -6 and CRITICAL for 6 —
severity is not a function of the absolute z-score. -/
theorem claim_C3_counterexample :
    getSeverity (F.fin (-6)) = "LOW" ∧ getSeverity (F.fin 6) = "CRITICAL" := by
  constructor <;> norm_num [getSeverity, F.lt]

/-- Claim C3 (amended): `getRiskLevel` is the identical classifier to
`getSeverity` (risk level equals severity for every z-score), but both
band on the raw signed z-score, not its absolute value: z > 5 → CRITICAL,
3 < z ≤ 5 → HIGH, 2 < z ≤ 3 → MEDIUM, and everything else — including
every negative z — → LOW. -/
theorem claim_C3_amended :
    (∀ z : F, getSeverity z = getRiskLevel z) ∧
    (∀ q : ℚ, getSeverity (F.fin q) =
      if 5 < q then "CRITICAL" else if 3 < q then "HIGH"
      else if 2 < q then "MEDIUM" else "LOW") := by
  refine ⟨fun z => rfl, fun q => ?_⟩
  simp [getSeverity, F.lt]

/-- Claim C4: when the looked-up signature has no stored `Stat`,
`DetectAnomaly` returns the empty anomaly list, whatever the observed
count — an explicit insufficient-data outcome, not a crash or a flag. -/
theorem claim_C4 (l : Learner) (name category pat : String) (count : Int) (b : Baseline)
    (hb : l.baselines name = some b)
    (hs : b.stats (category ++ ":" ++ pat) = none) :
    l.detectAnomaly name category pat count = [] := by
  simp [Learner.detectAnomaly, hb, hs]

/-- Claim C4 witness: an extreme observation against a signature that was
never learned yields no anomaly. -/
theorem claim_C4_witness :
    Learner.detectAnomaly zeroVarLearner "app" "file" "x" 1000000 = [] :=
  claim_C4 zeroVarLearner "app" "file" "x" 1000000 zeroVarBaseline rfl rfl

/-- Claim C5: on every finite z-score, `calculateConfidence` equals
`z^2 / (z^2 + 2)` exactly (the clamp at 1 never fires on finite input);
it is monotone non-decreasing in the absolute z-score, bounded in [0, 1],
and 0 at z = 0. -/
theorem claim_C5 :
    (∀ q : ℚ, calculateConfidence (F.fin q) = F.fin (q ^ 2 / (q ^ 2 + 2))) ∧
    (∀ q₁ q₂ : ℚ, |q₁| ≤ |q₂| →
      F.le (calculateConfidence (F.fin q₁)) (calculateConfidence (F.fin q₂)) = true) ∧
    (∀ q : ℚ, F.le (F.fin 0) (calculateConfidence (F.fin q)) = true ∧
      F.le (calculateConfidence (F.fin q)) (F.fin 1) = true) ∧
    calculateConfidence (F.fin 0) = F.fin 0 := by
  have hmono : ∀ a b : ℚ, |a| ≤ |b| → a ^ 2 / (a ^ 2 + 2) ≤ b ^ 2 / (b ^ 2 + 2) := by
    intro a b h
    have ha : (0 : ℚ) ≤ a ^ 2 := sq_nonneg a
    have hb : (0 : ℚ) ≤ b ^ 2 := sq_nonneg b
    have hsq : a ^ 2 ≤ b ^ 2 := by
      rw [← sq_abs a, ← sq_abs b]
      exact pow_le_pow_left₀ (abs_nonneg a) h 2
    rw [div_le_div_iff₀ (by linarith) (by linarith)]
    nlinarith
  refine ⟨calcConf_fin, ?_, ?_, ?_⟩
  · intro a b h
    rw [calcConf_fin, calcConf_fin]
    simp only [F.le, decide_eq_true_eq]
    exact hmono a b h
  · intro q
    have ha : (0 : ℚ) ≤ q ^ 2 := sq_nonneg q
    refine ⟨?_, ?_⟩
    · rw [calcConf_fin]
      simp only [F.le, decide_eq_true_eq]
      positivity
    · rw [calcConf_fin]
      simp only [F.le, decide_eq_true_eq]
      rw [div_le_one (by linarith)]
      linarith
  · rw [calcConf_fin]
    norm_num

/-- Claim C5 witness: confidence at z = 1 is at most confidence at z = 2. -/
theorem claim_C5_witness :
    F.le (calculateConfidence (F.fin 1)) (calculateConfidence (F.fin 2)) = true :=
  claim_C5.2.1 1 2 (by norm_num)

/-- Claim C6 counterexample: starting from a learner whose baseline "app"
holds a recorded stat, calling `CreateBaseline("app")` again succeeds and
the stored baseline's stats are wiped — the existing baseline is
overwritten, with no `DuplicateNameError` anywhere. -/
theorem claim_C6_counterexample :
    ((Learner.createBaseline zeroVarLearner "app").1.baselines "app").bind
        (fun b => b.stats "syscall:open") = none ∧
    (zeroVarLearner.baselines "app").bind (fun b => b.stats "syscall:open") =
      some zeroVarStat := by
  exact ⟨rfl, rfl⟩

/-- Claim C6 (amended): `CreateBaseline` never fails: for every store
state and name it unconditionally constructs a fresh baseline (empty
stats, threshold 3.0), stores it under the name — replacing any existing
baseline — and returns it.  Re-creation silently overwrites. -/
theorem claim_C6_amended (l : Learner) (name : String) :
    (Learner.createBaseline l name).2 =
      { name := name, stats := fun _ => none, anomalyThreshold := 3 } ∧
    (Learner.createBaseline l name).1.baselines name =
      some ((Learner.createBaseline l name).2) := by
  refine ⟨rfl, ?_⟩
  simp [Learner.createBaseline]

/-- Claim C7 counterexample: on a store with no baseline named "y",
`GetBaseline` returns nil and `DetectAnomaly` returns the empty list — the
missing baseline surfaces as a zero value, not as a `NotFoundError` (no
error type exists in the code, and `RecordObservation` takes a baseline
value, so it cannot even be called with a missing name). -/
theorem claim_C7_counterexample :
    newLearner.getBaseline "y" = none ∧
    Learner.detectAnomaly newLearner "y" "syscall" "open" 500 = [] := by
  exact ⟨rfl, rfl⟩

/-- Claim C7 (amended): every name-indexed operation on a missing baseline
surfaces the absence as a zero value rather than an error, and never
silently creates the baseline: `GetBaseline` returns `none` and
`DetectAnomaly` returns the empty anomaly list for every observation;
`RecordObservation` is a method on an already-retrieved baseline and
performs no lookup; no `NotFoundError` exists. -/
theorem claim_C7_amended (l : Learner) (name : String) (h : l.baselines name = none) :
    l.getBaseline name = none ∧
    ∀ (category pat : String) (count : Int),
      l.detectAnomaly name category pat count = [] := by
  refine ⟨h, ?_⟩
  intro category pat count
  simp [Learner.detectAnomaly, h]

/-- Claim C7 witness: the amended theorem applied to the empty learner and
the name "y". -/
theorem claim_C7_witness :
    Learner.detectAnomaly newLearner "y" "file" "z" 42 = [] :=
  (claim_C7_amended newLearner "y" rfl).2 "file" "z" 42

/-- Claim C8: the behavior score is exactly 100 on an empty baseline map
or a zero baseline total; otherwise it is
`clamp(100 - (ratio - 1) * 50, 0, 100)` with
`ratio = len(events) / total`; and it always lies in [0, 100]. -/
theorem claim_C8 (events : List SystemEvent) (baseline : List (String × Int)) :
    ((baseline = [] ∨ baselineTotal baseline = 0) →
      calculateBehaviorScore events baseline = 100) ∧
    (baseline ≠ [] → baselineTotal baseline ≠ 0 →
      calculateBehaviorScore events baseline =
        min 100 (max 0 (100 - ((events.length : ℚ) / baselineTotal baseline - 1) * 50))) ∧
    (0 ≤ calculateBehaviorScore events baseline ∧
      calculateBehaviorScore events baseline ≤ 100) := by
  unfold calculateBehaviorScore
  refine ⟨?_, ?_, ?_⟩
  · rintro (h | h)
    · simp [h]
    · by_cases hl : baseline.length = 0
      · simp [hl]
      · simp [hl, h]
  · intro hne htot
    have hl : ¬ baseline.length = 0 := by simpa [List.length_eq_zero] using hne
    simp only [hl, if_false, htot, ite_false]
    set raw : ℚ := 100 - ((events.length : ℚ) / baselineTotal baseline - 1) * 50 with hraw
    by_cases h0 : raw < 0
    · rw [if_pos h0, if_neg (by norm_num), max_eq_left (le_of_lt h0), min_eq_right (by norm_num)]
    · rw [if_neg h0, max_eq_right (not_lt.mp h0)]
      by_cases h100 : 100 < raw
      · rw [if_pos h100, min_eq_left (le_of_lt h100)]
      · rw [if_neg h100, min_eq_right (not_lt.mp h100)]
  · by_cases hl : baseline.length = 0
    · simp [hl]
    · simp only [hl, if_false]
      by_cases htot : baselineTotal baseline = 0
      · simp [htot]
      · simp only [htot, ite_false]
        set raw : ℚ := 100 - ((events.length : ℚ) / baselineTotal baseline - 1) * 50
        by_cases h0 : raw < 0
        · rw [if_pos h0]
          norm_num
        · rw [if_neg h0]
          by_cases h100 : 100 < raw
          · rw [if_pos h100]
            norm_num
          · rw [if_neg h100]
            exact ⟨not_lt.mp h0, not_lt.mp h100⟩

/-- Claim C8 witness: 4 observed events against a baseline totalling 2
(ratio 2) score 50, matching the clamp formula, and the empty case gives
exactly 100. -/
theorem claim_C8_witness :
    calculateBehaviorScore [] [] = 100 ∧
    calculateBehaviorScore (List.replicate 4 { type := "a" }) [("a", 2)] =
      min 100 (max 0 (100 - (((List.replicate 4 ({ type := "a" } : SystemEvent)).length : ℚ) /
        baselineTotal [("a", 2)] - 1) * 50)) :=
  ⟨(claim_C8 [] []).1 (Or.inl rfl),
   (claim_C8 _ _).2.1 (by simp) (by norm_num [baselineTotal])⟩

/-- The flagging condition as a proposition: the item has a baseline
expectation and its batch count exceeds it times the multiplier. -/
theorem overCount_iff (items : List String) (baseline : List (String × Int)) (mult : Int)
    (x : String) :
    overCount items baseline mult x = true ↔
      ∃ e, lookupMap baseline x = some e ∧ (countOcc x items : Int) > e * mult := by
  unfold overCount
  cases h : lookupMap baseline x <;> simp [h]

/-- Membership in the seen-dedup scan loop: an item is emitted iff it is in
the remaining batch, not yet seen, and over count. -/
theorem mem_detectSeenAux (items : List String) (baseline : List (String × Int)) (mult : Int) :
    ∀ (l seen : List String) (x : String),
      x ∈ detectSeenAux items baseline mult l seen ↔
        x ∈ l ∧ x ∉ seen ∧ overCount items baseline mult x = true := by
  intro l
  induction l with
  | nil =>
    intro seen x
    simp [detectSeenAux]
  | cons y rest ih =>
    intro seen x
    by_cases hy : y ∈ seen
    · rw [detectSeenAux, if_pos hy, ih]
      constructor
      · rintro ⟨hr, hs, hc⟩
        exact ⟨List.mem_cons_of_mem _ hr, hs, hc⟩
      · rintro ⟨hmem, hs, hc⟩
        rcases List.mem_cons.mp hmem with rfl | hr
        · exact absurd hy hs
        · exact ⟨hr, hs, hc⟩
    · rw [detectSeenAux, if_neg hy]
      by_cases hc : overCount items baseline mult y = true
      · rw [if_pos hc]
        rw [List.mem_cons, ih]
        constructor
        · rintro (rfl | ⟨hr, hs, hcx⟩)
          · exact ⟨List.mem_cons.mpr (Or.inl rfl), hy, hc⟩
          · refine ⟨List.mem_cons_of_mem _ hr, fun hxs => hs (List.mem_cons_of_mem _ hxs), hcx⟩
        · rintro ⟨hmem, hs, hcx⟩
          by_cases hxy : x = y
          · exact Or.inl hxy
          · rcases List.mem_cons.mp hmem with rfl | hr
            · exact Or.inl rfl
            · refine Or.inr ⟨hr, ?_, hcx⟩
              intro hxs
              rcases List.mem_cons.mp hxs with h | h
              · exact hxy h
              · exact hs h
      · rw [if_neg hc, ih]
        constructor
        · rintro ⟨hr, hs, hcx⟩
          refine ⟨List.mem_cons_of_mem _ hr, fun hxs => hs (List.mem_cons_of_mem _ hxs), hcx⟩
        · rintro ⟨hmem, hs, hcx⟩
          rcases List.mem_cons.mp hmem with rfl | hr
          · exact absurd hcx hc
          · refine ⟨hr, ?_, hcx⟩
            intro hxs
            rcases List.mem_cons.mp hxs with h | h
            · exact hc (h ▸ hcx)
            · exact hs h

/-- Claim C9: each of the three per-dimension scans flags an item iff it
occurs in the batch, has a baseline expectation, and its batch occurrence
count exceeds the expectation times the dimension's multiplier — 3 for
syscalls and network, 5 for file access; items absent from the baseline
map are never flagged. -/
theorem claim_C9 (batch : List String) (baseline : List (String × Int)) (x : String) :
    (x ∈ detectSystemCallAnomaly batch baseline ↔
      x ∈ batch ∧ ∃ e, lookupMap baseline x = some e ∧ (countOcc x batch : Int) > e * 3) ∧
    (x ∈ detectFileAccessAnomaly batch baseline ↔
      x ∈ batch ∧ ∃ e, lookupMap baseline x = some e ∧ (countOcc x batch : Int) > e * 5) ∧
    (x ∈ detectNetworkAnomaly batch baseline ↔
      x ∈ batch ∧ ∃ e, lookupMap baseline x = some e ∧ (countOcc x batch : Int) > e * 3) ∧
    (lookupMap baseline x = none →
      x ∉ detectSystemCallAnomaly batch baseline ∧
      x ∉ detectFileAccessAnomaly batch baseline ∧
      x ∉ detectNetworkAnomaly batch baseline) := by
  have hsys : x ∈ detectSystemCallAnomaly batch baseline ↔
      x ∈ batch ∧ ∃ e, lookupMap baseline x = some e ∧ (countOcc x batch : Int) > e * 3 := by
    unfold detectSystemCallAnomaly
    rw [List.mem_filter, overCount_iff]
  have hfile : x ∈ detectFileAccessAnomaly batch baseline ↔
      x ∈ batch ∧ ∃ e, lookupMap baseline x = some e ∧ (countOcc x batch : Int) > e * 5 := by
    unfold detectFileAccessAnomaly
    rw [mem_detectSeenAux, overCount_iff]
    simp
  have hnet : x ∈ detectNetworkAnomaly batch baseline ↔
      x ∈ batch ∧ ∃ e, lookupMap baseline x = some e ∧ (countOcc x batch : Int) > e * 3 := by
    unfold detectNetworkAnomaly
    rw [mem_detectSeenAux, overCount_iff]
    simp
  refine ⟨hsys, hfile, hnet, ?_⟩
  intro hnone
  refine ⟨?_, ?_, ?_⟩
  · intro hx
    rcases (hsys.mp hx).2 with ⟨e, he, _⟩
    rw [hnone] at he
    exact Option.noConfusion he
  · intro hx
    rcases (hfile.mp hx).2 with ⟨e, he, _⟩
    rw [hnone] at he
    exact Option.noConfusion he
  · intro hx
    rcases (hnet.mp hx).2 with ⟨e, he, _⟩
    rw [hnone] at he
    exact Option.noConfusion he

/-- Claim C9 witness: a syscall occurring 4 times against an expectation of
1 (multiplier 3) is flagged; an item with no baseline entry never is. -/
theorem claim_C9_witness :
    "a" ∈ detectSystemCallAnomaly ["a", "a", "a", "a"] [("a", 1)] ∧
    "z" ∉ detectNetworkAnomaly ["z"] [] :=
  ⟨(claim_C9 ["a", "a", "a", "a"] [("a", 1)] "a").1.mpr
      ⟨by decide, 1, by decide, by decide⟩,
   ((claim_C9 ["z"] [] "z").2.2.2 (by decide)).2.2⟩

/-- Unfolding the `categoryCounts` fold of `Detect`: the count stored for a
category is the number of events whose `Type` equals it. -/
theorem countCategories_eq (events : List SystemEvent) (c : String) :
    countCategories events c = (events.filter (fun e => e.type == c)).length := by
  have aux : ∀ (l : List SystemEvent) (m : String → Nat),
      l.foldl (fun counts event => fun c' =>
        if c' = event.type then counts c' + 1 else counts c') m c =
        m c + (l.filter (fun e => e.type == c)).length := by
    intro l
    induction l with
    | nil =>
      intro m
      simp
    | cons e es ihl =>
      intro m
      rw [List.foldl_cons, ihl]
      by_cases hc : c = e.type
      · subst hc
        simp only [List.filter_cons, beq_self_eq_true, if_pos rfl, List.length_cons, if_true]
        omega
      · have hbe : (e.type == c) = false := by
          simp [Ne.symm hc]
        simp [List.filter_cons, hbe, hc]
  simpa [countCategories] using aux events (fun _ => 0)

/-- Claim C10: `Detect` emits a result iff some pattern's category has
strictly more than 100 matching events in the batch; the result carries
confidence `count / 200`, which exceeds 1 whenever the category count
exceeds 200 — this detection path's confidence is not bounded by 1. -/
theorem claim_C10 (d : Detector) (events : List SystemEvent) :
    (∀ r, r ∈ d.detect events ↔
      ∃ p, p ∈ d.patterns ∧
        100 < (events.filter (fun e => e.type == p.category)).length ∧
        r = resultOf p ((events.filter (fun e => e.type == p.category)).length)) ∧
    (∀ (p : Pattern) (n : Nat), 200 < n → 1 < (resultOf p n).confidence) := by
  constructor
  · intro r
    unfold Detector.detect
    rw [List.mem_filterMap]
    constructor
    · rintro ⟨p, hp, hr⟩
      rw [countCategories_eq] at hr
      by_cases h : 100 < (events.filter (fun e => e.type == p.category)).length
      · rw [if_pos h] at hr
        exact ⟨p, hp, h, (Option.some.injEq _ _ ▸ hr).symm⟩
      · rw [if_neg h] at hr
        exact Option.noConfusion hr
    · rintro ⟨p, hp, h, rfl⟩
      refine ⟨p, hp, ?_⟩
      rw [countCategories_eq, if_pos h]
  · intro p n hn
    show (1 : ℚ) < (n : ℚ) / 200
    rw [lt_div_iff₀ (by norm_num)]
    exact_mod_cast by omega

/-- Claim C10 witness: a category count of 250 yields confidence 5/4 > 1. -/
theorem claim_C10_witness :
    1 < (resultOf (Pattern.mk "System Call Spike" "syscall" "MEDIUM"
        "High system call frequency") 250).confidence :=
  (claim_C10 newDetector []).2 _ 250 (by norm_num)

end Runtimebase
